import Mathlib

/-!
Shallow embedding of `rnaseqlib/QualityControl.py` (a Python 2 module).

The module defines two classes:
* `QualityControl` — per-sample QC record: a `defaultdict` of QC values
  defaulting to the string `"NA"`, a canonical output header, load-from-file /
  compute / persist-to-file lifecycle, and derived-ratio getters.
* `QCStats` — aggregation of many samples' QC records into one report.

Python 2 semantics that matter here and are modelled faithfully:
* `/` between two ints is floor division;
* values loaded from a QC file via `csv.DictReader` are strings, and
  arithmetic between strings (or a float and a string) raises `TypeError`;
* `x == "NA"` is `True` only when `x` is that string; `x == 0` is `True`
  for the integer `0` (and float `0.0`) but not for the string `"0"`;
* `sys.exit(1)` aborts the whole pass (modelled as an `Except` error);
* `csv.DictReader(...).next()` yields a plain `dict`, not a `defaultdict`.

Python floats are modelled as rationals: every division appearing in the
claims has small operands whose quotients are exactly representable.
-/

/-- Python runtime values as they occur in `qc_results`: strings (the `"NA"`
sentinel, and all values hydrated from a QC file), ints (fresh counts), and
floats (derived ratios), floats modelled as rationals. -/
inductive PyVal where
  | str : String → PyVal
  | int : Int → PyVal
  | float : ℚ → PyVal
deriving DecidableEq, Repr

/-- Python exceptions and exits that the embedded code can raise. `systemExit`
carries the label of the sample whose per-sample logger (named
`QualityControl.<label>`) emitted the fatal diagnostic before `sys.exit(1)`. -/
inductive PyErr where
  | typeError : PyErr
  | valueError : PyErr
  | keyError : PyErr
  | attributeError : PyErr
  | zeroDivisionError : PyErr
  | systemExit : String → PyErr
deriving DecidableEq, Repr

/-- Python 2 equality of a `qc_results` value against the string `"NA"`
(`self.na_val`): true only for that exact string. -/
def pyIsNA : PyVal → Bool
  | .str s => s = "NA"
  | _ => false

/-- Python 2 equality of a `qc_results` value against the integer `0`:
true for `0` and `0.0`, false for any string (Python 2: `"0" == 0` is False). -/
def pyEqZero : PyVal → Bool
  | .int n => n = 0
  | .float q => q = 0
  | _ => false

/-- Python 2 division `a / b`: floor division for int/int, true division when
either side is a float, `ZeroDivisionError` on a zero denominator, and
`TypeError` when either operand is a string. -/
def pyDiv : PyVal → PyVal → Except PyErr PyVal
  | .int a, .int b =>
      if b = 0 then .error .zeroDivisionError else .ok (.int (Int.fdiv a b))
  | .int a, .float b =>
      if b = 0 then .error .zeroDivisionError else .ok (.float ((a : ℚ) / b))
  | .float a, .int b =>
      if b = 0 then .error .zeroDivisionError else .ok (.float (a / (b : ℚ)))
  | .float a, .float b =>
      if b = 0 then .error .zeroDivisionError else .ok (.float (a / b))
  | _, _ => .error .typeError

/-- Split a character list on a separator (the character-level behaviour of
Python's `str.split`). -/
def splitChars (sep : Char) : List Char → List (List Char)
  | [] => [[]]
  | c :: cs =>
      let r := splitChars sep cs
      if c = sep then [] :: r
      else
        match r with
        | [] => [[c]]
        | g :: gs => (c :: g) :: gs

/-- Parse a non-empty run of decimal digits, most significant first. -/
def parseDigitsAux : List Char → Nat → Option Nat
  | [], acc => some acc
  | c :: cs, acc =>
      if c.isDigit then parseDigitsAux cs (acc * 10 + (c.toNat - 48)) else none

/-- Parse a digit string to a natural number; `none` on the empty string or
on any non-digit character (the inputs Python's `int`/`float` would reject
among persisted QC counts, e.g. `"NA"`). -/
def parseDigits : List Char → Option Nat
  | [] => none
  | cs => parseDigitsAux cs 0

/-- The builtin `float(x)` as used on QC counts: ints and floats convert,
digit strings parse (all persisted counts are digit strings), anything else
(e.g. `"NA"`) raises `ValueError`. -/
def pyFloat : PyVal → Except PyErr ℚ
  | .int n => .ok (n : ℚ)
  | .float q => .ok q
  | .str s =>
      match parseDigits s.data with
      | some n => .ok (n : ℚ)
      | none => .error .valueError

/-- The builtin `int(s)` on a digit string; `ValueError` otherwise. -/
def pyToInt (s : String) : Except PyErr Int :=
  match parseDigits s.data with
  | some n => .ok (n : Int)
  | none => .error .valueError

/-- `x.split(",")` — only strings have `.split`; anything else raises
`AttributeError`. -/
def pySplitComma : PyVal → Except PyErr (List String)
  | .str s => .ok ((splitChars ',' s.data).map List.asString)
  | _ => .error .attributeError

instance {ε α : Type} [DecidableEq ε] [DecidableEq α] : DecidableEq (Except ε α)
  | .ok a, .ok b =>
      match decEq a b with
      | isTrue h => isTrue (by rw [h])
      | isFalse h => isFalse (by intro hh; cases hh; exact h rfl)
  | .ok _, .error _ => isFalse (by intro hh; cases hh)
  | .error _, .ok _ => isFalse (by intro hh; cases hh)
  | .error e, .error f =>
      match decEq e f with
      | isTrue h => isTrue (by rw [h])
      | isFalse h => isFalse (by intro hh; cases hh; exact h rfl)

/-- The builtin `min` on a list of ints; `ValueError` on an empty list. -/
def pyMin : List Int → Except PyErr Int
  | [] => .error .valueError
  | x :: xs => .ok (xs.foldl min x)

/-- `self.qc_results`: an association list of set keys plus a flag recording
whether the dict is still the `defaultdict(lambda: self.na_val)` from
`__init__` (`isDefault = true`) or the plain `dict` produced by
`csv.DictReader(...).next()` in `load_qc_from_file` (`isDefault = false`). -/
structure QCDict where
  entries : List (String × PyVal)
  isDefault : Bool
deriving DecidableEq, Repr

/-- `self.qc_results[k]` lookup: a missing key yields the `"NA"` default on
the `defaultdict`, and `KeyError` on the plain dict adopted after a load. -/
def QCDict.get (d : QCDict) (k : String) : Except PyErr PyVal :=
  match d.entries.lookup k with
  | some v => .ok v
  | none => if d.isDefault then .ok (.str "NA") else .error .keyError

/-- Replace-or-append on the underlying association list
(`self.qc_results[k] = v`). -/
def setEntries : List (String × PyVal) → String → PyVal → List (String × PyVal)
  | [], k, v => [(k, v)]
  | (k', v') :: rest, k, v =>
      if k' = k then (k, v) :: rest else (k', v') :: setEntries rest k v

/-- `self.qc_results[k] = v`: dict assignment; preserves the default flag. -/
def QCDict.set (d : QCDict) (k : String) (v : PyVal) : QCDict :=
  { d with entries := setEntries d.entries k v }

/-- `self.regions_header` from `QualityControl.__init__`. -/
def regions_header : List String :=
  ["num_ribo", "num_exons", "num_cds", "num_introns", "num_3p_utr", "num_5p_utr"]

/-- `self.qc_stats_header` from `QualityControl.__init__` (note: it does not
contain `percent_unique`). -/
def qc_stats_header : List String :=
  ["percent_mapped", "percent_ribo", "percent_exons", "percent_cds", "percent_introns"]

/-- `self.qc_header` as built in `QualityControl.__init__`:
raw counts, then the stats header, then the regions header — 14 keys. -/
def qc_header_init : List String :=
  ["num_reads", "num_mapped", "num_unique_mapped"] ++ qc_stats_header ++ regions_header

/-- State of one `QualityControl` instance: the fields of the Python object
that the QC logic reads and writes. Paths, logger and collaborator handles are
external; `qc_filename` is kept as an opaque path string. -/
structure QCRecord where
  sample_label : String
  paired : Bool
  qc_filename : String
  qc_header : List String
  qc_results : QCDict
  qc_loaded : Bool
deriving DecidableEq, Repr

namespace QualityControl

/-- `QualityControl.__init__` (the record fields it sets, before the
`load_qc_from_file` call at its end): canonical header, empty
`defaultdict(lambda: "NA")`, `qc_loaded = False`. -/
def init (label : String) (paired : Bool) (qc_filename : String) : QCRecord :=
  { sample_label := label
    paired := paired
    qc_filename := qc_filename
    qc_header := qc_header_init
    qc_results := { entries := [], isDefault := true }
    qc_loaded := false }

/-- A persisted per-sample QC file: a header row and a single data row of
opaque strings, as `csv.DictReader` presents them. -/
structure QCFile where
  header : List String
  row : List String
deriving DecidableEq, Repr

/-- `load_qc_from_file`: if a file exists at `qc_filename`, adopt its header
as `qc_header` and its first data row as `qc_results` — a plain dict of
strings keyed by the file's header (`csv.DictReader(...).next()`), not a
`defaultdict` — and set `qc_loaded`. With no file, the record is unchanged. -/
def load_qc_from_file (s : QCRecord) (file? : Option QCFile) : QCRecord :=
  match file? with
  | none => s
  | some f =>
      { s with
        qc_header := f.header
        qc_results :=
          { entries := f.header.zip (f.row.map PyVal.str), isDefault := false }
        qc_loaded := true }

/-- `get_percent_mapped` (lines 269-284): return 0 when `num_mapped` is
`"NA"`; for paired samples divide `num_mapped` by the minimum of the two mate
counts parsed from the comma-joined `num_reads` string; otherwise divide by
`num_reads`. Python 2 `/` throughout (no float cast). -/
def get_percent_mapped (s : QCRecord) : Except PyErr PyVal := do
  let nm ← s.qc_results.get "num_mapped"
  if pyIsNA nm then
    return .int 0
  if s.paired then
    let nr ← s.qc_results.get "num_reads"
    let parts ← pySplitComma nr
    let counts ← parts.mapM pyToInt
    let pair_denom ← pyMin counts
    pyDiv nm (.int pair_denom)
  else
    let nr ← s.qc_results.get "num_reads"
    pyDiv nm nr

/-- `get_percent_unique` (lines 287-293): return 0 when `num_unique_mapped`
is `"NA"`, else `num_unique_mapped / num_mapped` (no float cast). -/
def get_percent_unique (s : QCRecord) : Except PyErr PyVal := do
  let nu ← s.qc_results.get "num_unique_mapped"
  if pyIsNA nu then
    return .int 0
  let nm ← s.qc_results.get "num_mapped"
  pyDiv nu nm

/-- `get_percent_ribo` (lines 296-302): return 0 when `num_ribo` is `"NA"`;
otherwise the quotient `num_ribo / num_mapped` is computed into a local (its
exceptions propagate) but the function then returns the literal `0`. -/
def get_percent_ribo (s : QCRecord) : Except PyErr PyVal := do
  let nr ← s.qc_results.get "num_ribo"
  if pyIsNA nr then
    return .int 0
  let nm ← s.qc_results.get "num_mapped"
  let _ ← pyDiv nr nm
  return .int 0

/-- `get_percent_exons` (lines 305-311): return 0 when `num_exons` is `"NA"`,
else `float(num_exons) / num_mapped`. -/
def get_percent_exons (s : QCRecord) : Except PyErr PyVal := do
  let ne ← s.qc_results.get "num_exons"
  if pyIsNA ne then
    return .int 0
  let nm ← s.qc_results.get "num_mapped"
  let nef ← pyFloat ne
  pyDiv (.float nef) nm

/-- `get_percent_introns` (lines 314-320): return 0 when `num_introns` is
`"NA"`, else `float(num_introns) / num_mapped`. -/
def get_percent_introns (s : QCRecord) : Except PyErr PyVal := do
  let ni ← s.qc_results.get "num_introns"
  if pyIsNA ni then
    return .int 0
  let nm ← s.qc_results.get "num_mapped"
  let nif ← pyFloat ni
  pyDiv (.float nif) nm

/-- `get_percent_cds` (lines 323-329): return 0 when `num_cds` is `"NA"`,
else `float(num_cds) / num_mapped`. -/
def get_percent_cds (s : QCRecord) : Except PyErr PyVal := do
  let nc ← s.qc_results.get "num_cds"
  if pyIsNA nc then
    return .int 0
  let nm ← s.qc_results.get "num_mapped"
  let ncf ← pyFloat nc
  pyDiv (.float ncf) nm

/-- `compute_qc_stats` (lines 332-351): if `num_mapped` equals `"NA"` or the
integer `0`, log a critical diagnostic (through the per-sample logger named
after `sample_label`) and `sys.exit(1)`; otherwise evaluate the six stat
functions in their listed order, storing each result under its stat name. -/
def compute_qc_stats (s : QCRecord) : Except PyErr QCRecord := do
  let nm ← s.qc_results.get "num_mapped"
  if pyIsNA nm || pyEqZero nm then
    throw (.systemExit s.sample_label)
  let v1 ← get_percent_unique s
  let s1 := { s with qc_results := s.qc_results.set "percent_unique" v1 }
  let v2 ← get_percent_mapped s1
  let s2 := { s1 with qc_results := s1.qc_results.set "percent_mapped" v2 }
  let v3 ← get_percent_ribo s2
  let s3 := { s2 with qc_results := s2.qc_results.set "percent_ribo" v3 }
  let v4 ← get_percent_exons s3
  let s4 := { s3 with qc_results := s3.qc_results.set "percent_exons" v4 }
  let v5 ← get_percent_introns s4
  let s5 := { s4 with qc_results := s4.qc_results.set "percent_introns" v5 }
  let v6 ← get_percent_cds s5
  return { s5 with qc_results := s5.qc_results.set "percent_cds" v6 }

end QualityControl

/-- A written QC table as `pandas.DataFrame(...).to_csv` produces it: a
header and data rows. Cell values are kept structured (a `none` cell models
pandas NaN for a column absent from a row); rendering to text is pandas
behaviour, external to this module. -/
structure OutFile where
  header : List String
  rows : List (List (Option PyVal))
deriving DecidableEq, Repr

/-- The file system seen by the QC code: an association of paths to written
QC files. The content at a path is the first binding (`FS.lookup`). -/
def FS : Type := List (String × OutFile)

instance : DecidableEq FS := by
  unfold FS
  infer_instance

/-- `os.path.isfile` / reading the content at a path. -/
def FS.lookup (fs : FS) (path : String) : Option OutFile :=
  List.lookup path fs

namespace QualityControl

/-- `output_qc` (lines 376-390): if the sample's QC file already exists,
print a SKIPPING message and return without writing; otherwise write a
single-row table whose columns are `qc_header` in order. A header key missing
from a loaded plain dict surfaces as a `KeyError`; on the fresh
`defaultdict` every lookup defaults to `"NA"`. -/
def output_qc (s : QCRecord) (fs : FS) : Except PyErr FS := do
  if (fs.lookup s.qc_filename).isSome then
    return fs
  let row ← s.qc_header.mapM s.qc_results.get
  return (s.qc_filename,
    { header := s.qc_header, rows := [row.map some] }) :: fs

end QualityControl

namespace QCStats

/-- State of a `QCStats` instance (`__init__`, lines 435-441): sample labels
in order, the name of the sample column, each sample's `qc_results` keyed by
label, the compiled table (initially `None`), and the report header. -/
structure State where
  samples : List String
  sample_header : String
  qc_objects : List (String × QCDict)
  qc_stats : Option (List (List (String × PyVal)))
  qc_header : List String
deriving Repr

/-- Number of parameters after `self` in the source signature
`def compile_qc(self):` (line 453) — zero. -/
def compile_qc_argcount : Nat := 0

/-- `compile_qc` (lines 453-470): `sys.exit(1)` on an empty sample set, else
one row per sample: a copy of that sample's `qc_results` with the sample
label added under `sample_header`. A label absent from `qc_objects` raises
`KeyError`. -/
def compile_qc (st : State) : Except PyErr State := do
  if st.samples.length = 0 then
    throw (.systemExit "No samples given to compile QC from!")
  let qc_entries ← st.samples.mapM fun label => do
    match List.lookup label st.qc_objects with
    | none => throw PyErr.keyError
    | some d => pure (setEntries d.entries st.sample_header (.str label))
  return { st with qc_stats := some qc_entries }

/-- `to_csv` (lines 473-486): header is `sample_header` followed by
`qc_header`; missing columns only produce warnings; the report is written
unconditionally (overwriting any previous content at the path), one row per
compiled entry, with NaN (`none`) in cells whose column the entry lacks.
`self.qc_stats` still `None` raises `AttributeError`. -/
def to_csv (st : State) (fs : FS) (output_filename : String) :
    Except PyErr FS := do
  match st.qc_stats with
  | none => throw .attributeError
  | some entries =>
      let header := st.sample_header :: st.qc_header
      let rows := entries.map fun entry => header.map fun col =>
        List.lookup col entry
      return (output_filename, { header := header, rows := rows }) :: fs

/-- `QCStats.output_qc` (lines 444-450): prints, then evaluates
`self.compile_qc(self.samples)` — one positional argument against a method
declaring `compile_qc_argcount = 0` of them, so Python raises `TypeError`
before the body of `compile_qc` runs; only then would `to_csv` be reached. -/
def output_qc (st : State) (fs : FS) (output_filename : String) :
    Except PyErr (State × FS) := do
  if compile_qc_argcount = 1 then
    let st1 ← compile_qc st
    let fs1 ← to_csv st1 fs output_filename
    return (st1, fs1)
  else
    throw .typeError

end QCStats

open QualityControl

/-- Run `compute_qc_stats` and read one key of the resulting record. -/
def statOf (s : QCRecord) (k : String) : Except PyErr PyVal := do
  let r ← compute_qc_stats s
  r.qc_results.get k

/-- `true` on `ok` results, `false` on errors. -/
def exceptOk {ε α : Type} : Except ε α → Bool
  | .ok _ => true
  | .error _ => false

/-- The single-end sample of the spec's concrete scenario: integer counts
num_reads=1000, num_mapped=800, num_unique_mapped=760, num_ribo=80,
num_exons=600, num_introns=100, num_cds=0, num_3p_utr=0, num_5p_utr=0,
in a freshly constructed record. -/
def scenarioSingleEnd : QCRecord :=
  let s := init "sampleA" false "pathA"
  { s with qc_results := { s.qc_results with entries :=
      [("num_reads", .int 1000), ("num_mapped", .int 800),
       ("num_unique_mapped", .int 760), ("num_ribo", .int 80),
       ("num_exons", .int 600), ("num_introns", .int 100),
       ("num_cds", .int 0), ("num_3p_utr", .int 0), ("num_5p_utr", .int 0)] } }

/-- The paired-end sample of the spec's concrete scenario: `num_reads` is the
comma-joined pair `"1000,950"` (the string `get_num_reads` produces for
paired samples) and num_mapped=900. -/
def scenarioPairedEnd : QCRecord :=
  let s := init "sampleP" true "pathP"
  { s with qc_results := { s.qc_results with entries :=
      [("num_reads", .str "1000,950"), ("num_mapped", .int 900)] } }

/-- A record holding only `num_mapped = 800`; every other key still reads as
the `"NA"` default. -/
def mappedOnlyRecord : QCRecord :=
  let s := init "sampleM" false "pathM"
  { s with qc_results := { s.qc_results with entries :=
      [("num_mapped", .int 800)] } }

/-- A record holding only `num_ribo` and `num_mapped`, both available. -/
def riboOnlyRecord : QCRecord :=
  let s := init "sampleR" false "pathR"
  { s with qc_results := { s.qc_results with entries :=
      [("num_ribo", .int 80), ("num_mapped", .int 800)] } }

/-- The QC file that persisting `scenarioSingleEnd` after a successful
`compute_qc_stats` leaves on disk: canonical 14-column header, all cell
values rendered as strings. -/
def persistedSingleEnd : QCFile :=
  { header := qc_header_init
    row := ["1000", "800", "760", "0", "0", "0.75", "0.0", "0.125",
            "80", "600", "0", "100", "0", "0"] }

theorem exceptBind_ok {e a b : Type} (x : a) (f : a → Except e b) :
    (Except.ok x >>= f) = f x := rfl

theorem exceptBind_error {e a b : Type} (err : e) (f : a → Except e b) :
    ((Except.error err : Except e a) >>= f) = .error err := rfl

theorem FS.lookup_cons_self (p : String) (f : OutFile) (fs : FS) :
    FS.lookup ((p, f) :: fs) p = some f := by
  simp [FS.lookup, List.lookup]

theorem setEntries_lookup_ne (l : List (String × PyVal)) (k k' : String)
    (v : PyVal) (h : k ≠ k') :
    (setEntries l k' v).lookup k = l.lookup k := by
  have hbeq : (k == k') = false := beq_eq_false_iff_ne.mpr h
  induction l with
  | nil => simp [setEntries, List.lookup, hbeq]
  | cons hd tl ih =>
      obtain ⟨a, b⟩ := hd
      by_cases hak : a = k'
      · subst hak
        simp [setEntries, List.lookup, hbeq]
      · simp only [setEntries, if_neg hak, List.lookup]
        cases hka : k == a <;> simp [hka, ih]

theorem foldSet_get_default (sets : List (String × PyVal)) (d : QCDict)
    (k : String) (hdef : d.isDefault = true) (hk : k ∉ sets.map Prod.fst)
    (hl : d.entries.lookup k = none) :
    (sets.foldl (fun d kv => d.set kv.1 kv.2) d).get k = .ok (.str "NA") := by
  induction sets generalizing d with
  | nil => simp [QCDict.get, hl, hdef]
  | cons hd' tl ih =>
      simp only [List.map_cons, List.mem_cons, not_or] at hk
      refine ih (d.set hd'.1 hd'.2) hdef hk.2 ?_
      show (setEntries d.entries hd'.1 hd'.2).lookup k = none
      rw [setEntries_lookup_ne _ _ _ _ hk.1]
      exact hl

/-- Claim C1: for every sample record whose `num_mapped` value is the `"NA"`
sentinel or the integer 0, `compute_qc_stats` is fatal: it aborts the whole
QC pass via `sys.exit(1)` after a critical diagnostic through the per-sample
logger, identified here by the sample's label carried in the `systemExit`
error — it does not return a recoverable value or per-metric NA. -/
theorem compute_qc_stats_fatal_of_na_or_zero_num_mapped (s : QCRecord)
    (v : PyVal) (h : s.qc_results.get "num_mapped" = .ok v)
    (hv : v = .str "NA" ∨ v = .int 0) :
    compute_qc_stats s = .error (.systemExit s.sample_label) := by
  unfold compute_qc_stats
  rw [h]
  rcases hv with hv | hv <;> subst hv <;> rfl

/-- Witness for C1: a freshly constructed record defaults `num_mapped` to
`"NA"`, and computing its QC stats aborts naming the sample. -/
theorem compute_qc_stats_fatal_witness :
    compute_qc_stats (init "w1" false "path1") = .error (.systemExit "w1") :=
  compute_qc_stats_fatal_of_na_or_zero_num_mapped
    (init "w1" false "path1") (.str "NA") rfl (Or.inl rfl)

/-- Claim C2 (code bug): with `num_ribo = 80` and `num_mapped = 800`
available, `get_percent_ribo` returns the literal 0 — not the quotient
`num_ribo / num_mapped = 0.1` the spec states (the function computes the
quotient into a local and then returns `0`; moreover the quotient itself is
Python 2 floor division). -/
theorem get_percent_ribo_returns_zero_bug :
    get_percent_ribo riboOnlyRecord = .ok (.int 0) ∧
    (PyVal.int 0) ≠ .float (1 / 10) := by
  exact ⟨by decide, by decide⟩

/-- Claim C3 (code bug): the persisted round trip does not reproduce the
derived ratios. Computing stats on the fresh single-end scenario succeeds,
but loading the file it persists hydrates every count as a string, and
re-running `compute_qc_stats` on the loaded record raises `TypeError`
(string division) instead of reproducing the ratios. -/
theorem roundtrip_recompute_raises_typeerror :
    exceptOk (compute_qc_stats scenarioSingleEnd) = true ∧
    compute_qc_stats
        (load_qc_from_file (init "sampleA" false "pathA")
          (some persistedSingleEnd)) = .error .typeError := by
  exact ⟨by decide, by decide⟩

/-- Claim C4: persisting is non-clobbering — if a first `output_qc` returns
file system `fs1`, a second persist of any record with the same QC filename
leaves `fs1` (and hence the content at that path) unchanged. -/
theorem output_qc_second_persist_unchanged (s s' : QCRecord) (fs fs1 : FS)
    (hname : s'.qc_filename = s.qc_filename)
    (h1 : output_qc s fs = .ok fs1) :
    output_qc s' fs1 = .ok fs1 := by
  unfold output_qc at h1 ⊢
  rw [hname]
  by_cases hex : (fs.lookup s.qc_filename).isSome
  · rw [if_pos hex] at h1
    cases h1
    rw [if_pos hex]
    rfl
  · rw [if_neg hex] at h1
    cases hrow : s.qc_header.mapM s.qc_results.get with
    | error e =>
        rw [hrow] at h1
        cases h1
    | ok row =>
        rw [hrow] at h1
        cases h1
        rw [if_pos (by rw [FS.lookup_cons_self]; rfl)]
        rfl

/-- Witness for C4: persisting a fresh record to an empty file system and
persisting again returns the file system of the first persist unchanged. -/
theorem output_qc_second_persist_unchanged_witness :
    output_qc (init "w4" false "pw4")
      [("pw4", { header := qc_header_init
                 rows := [List.replicate 14 (some (.str "NA"))] })] =
    .ok [("pw4", { header := qc_header_init
                   rows := [List.replicate 14 (some (.str "NA"))] })] :=
  output_qc_second_persist_unchanged
    (init "w4" false "pw4") (init "w4" false "pw4") []
    [("pw4", { header := qc_header_init
               rows := [List.replicate 14 (some (.str "NA"))] })]
    rfl (by decide)

/-- Claim C5: with a valid non-zero integer `num_mapped`, each of the four
region ratios returns 0 — never `"NA"` and never an exception — whenever its
own numerator reads as the `"NA"` sentinel. -/
theorem region_ratio_zero_of_na_numerator (s : QCRecord) (m : Int)
    (_hm : s.qc_results.get "num_mapped" = .ok (.int m)) (_hm0 : m ≠ 0) :
    (s.qc_results.get "num_ribo" = .ok (.str "NA") →
      get_percent_ribo s = .ok (.int 0)) ∧
    (s.qc_results.get "num_exons" = .ok (.str "NA") →
      get_percent_exons s = .ok (.int 0)) ∧
    (s.qc_results.get "num_introns" = .ok (.str "NA") →
      get_percent_introns s = .ok (.int 0)) ∧
    (s.qc_results.get "num_cds" = .ok (.str "NA") →
      get_percent_cds s = .ok (.int 0)) := by
  refine ⟨fun hr => ?_, fun he => ?_, fun hi => ?_, fun hc => ?_⟩
  · unfold get_percent_ribo
    rw [hr]
    rfl
  · unfold get_percent_exons
    rw [he]
    rfl
  · unfold get_percent_introns
    rw [hi]
    rfl
  · unfold get_percent_cds
    rw [hc]
    rfl

/-- Witness for C5: a record with only `num_mapped = 800` set leaves all four
numerators at the `"NA"` default, and each region ratio evaluates to 0. -/
theorem region_ratio_zero_of_na_numerator_witness :
    get_percent_ribo mappedOnlyRecord = .ok (.int 0) ∧
    get_percent_exons mappedOnlyRecord = .ok (.int 0) ∧
    get_percent_introns mappedOnlyRecord = .ok (.int 0) ∧
    get_percent_cds mappedOnlyRecord = .ok (.int 0) := by
  have h := region_ratio_zero_of_na_numerator mappedOnlyRecord 800
    (by decide) (by decide)
  exact ⟨h.1 (by decide), h.2.1 (by decide), h.2.2.1 (by decide),
    h.2.2.2 (by decide)⟩

/-- Claim C6 (code bug): on the spec's single-end scenario with integer
counts, the code yields percent_mapped = 0 (not 0.8), percent_unique = 0
(not 0.95) — Python 2 floor division without a float cast — and
percent_ribo = 0 (not 0.1) — the return-literal-0 slip; only percent_exons,
percent_introns and percent_cds (which do cast to float) match the claimed
0.75, 0.125 and 0.0. -/
theorem qc_stats_single_end_scenario_eval :
    statOf scenarioSingleEnd "percent_mapped" = .ok (.int 0) ∧
    statOf scenarioSingleEnd "percent_unique" = .ok (.int 0) ∧
    statOf scenarioSingleEnd "percent_ribo" = .ok (.int 0) ∧
    (∃ q : ℚ, statOf scenarioSingleEnd "percent_exons" = .ok (.float q) ∧
      q = 3 / 4) ∧
    (∃ q : ℚ, statOf scenarioSingleEnd "percent_introns" = .ok (.float q) ∧
      q = 1 / 8) ∧
    (∃ q : ℚ, statOf scenarioSingleEnd "percent_cds" = .ok (.float q) ∧
      q = 0) := by
  refine ⟨by decide, by decide, by decide, ⟨_, rfl, by norm_num⟩,
    ⟨_, rfl, by norm_num⟩, ⟨_, rfl, by norm_num⟩⟩

/-- Claim C7 (code bug): on the paired-end scenario with read counts
`"1000,950"` and num_mapped = 900, the code does use the minimum of the two
mate counts (950) as denominator, but Python 2 floor division makes
`get_percent_mapped` return 0, not 900/950 ≈ 0.947. -/
theorem percent_mapped_paired_scenario_eval :
    get_percent_mapped scenarioPairedEnd = .ok (.int 0) ∧
    (PyVal.int 0) ≠ .float (900 / 950) := by
  exact ⟨by decide, by decide⟩

/-- Counterexample to claim C8: the canonical header built in `__init__` has
14 columns and does not contain `percent_unique`, so the file persisted for a
freshly constructed (never hydrated) record does not carry all fifteen keys
of the data model. -/
theorem persisted_header_missing_percent_unique :
    (QualityControl.output_qc (init "s8" false "p8") []).map
        (fun fs => (fs.lookup "p8").map OutFile.header)
      = .ok (some qc_header_init) ∧
    "percent_unique" ∉ qc_header_init ∧ qc_header_init.length = 14 := by
  exact ⟨by decide, by decide, by decide⟩

/-- Claim C8 as amended: for every record still carrying the canonical
header, persisting to a fresh path writes a single-row table whose header is
the canonical key order — the fixed 14-key list below, which omits
`percent_unique`. -/
theorem output_qc_writes_canonical_header (s : QCRecord) (fs : FS)
    (row : List PyVal)
    (hh : s.qc_header = qc_header_init)
    (hf : (fs.lookup s.qc_filename).isSome = false)
    (hrow : s.qc_header.mapM s.qc_results.get = .ok row) :
    QualityControl.output_qc s fs =
      .ok ((s.qc_filename,
            { header := qc_header_init, rows := [row.map some] }) :: fs) ∧
    qc_header_init =
      ["num_reads", "num_mapped", "num_unique_mapped",
       "percent_mapped", "percent_ribo", "percent_exons", "percent_cds",
       "percent_introns",
       "num_ribo", "num_exons", "num_cds", "num_introns", "num_3p_utr",
       "num_5p_utr"] ∧
    "percent_unique" ∉ qc_header_init ∧ qc_header_init.length = 14 := by
  refine ⟨?_, by decide, by decide, by decide⟩
  unfold QualityControl.output_qc
  rw [hh] at hrow
  rw [hh]
  simp only [hf, Bool.false_eq_true, if_false]
  rw [hrow]
  rfl

/-- Witness for amended C8: persisting a fresh record to an empty file
system writes the canonical 14-column header with an all-`"NA"` row. -/
theorem output_qc_writes_canonical_header_witness :
    QualityControl.output_qc (init "w8" false "pw8") [] =
      .ok [("pw8",
            { header := qc_header_init
              rows := [(List.replicate 14 (PyVal.str "NA")).map some] })] ∧
    qc_header_init =
      ["num_reads", "num_mapped", "num_unique_mapped",
       "percent_mapped", "percent_ribo", "percent_exons", "percent_cds",
       "percent_introns",
       "num_ribo", "num_exons", "num_cds", "num_introns", "num_3p_utr",
       "num_5p_utr"] ∧
    "percent_unique" ∉ qc_header_init ∧ qc_header_init.length = 14 :=
  output_qc_writes_canonical_header (init "w8" false "pw8") []
    (List.replicate 14 (PyVal.str "NA")) rfl (by decide) (by decide)

/-- Counterexample to claim C9: hydrating a record from a persisted file
whose header lacks `num_cds` replaces the defaulting dict by the plain dict
of the file's columns, so looking up the uncomputed key `num_cds` afterwards
raises `KeyError` instead of returning the `"NA"` sentinel. -/
theorem lookup_after_load_raises_keyerror :
    (load_qc_from_file (init "s9" false "p9")
        (some { header := ["num_reads", "num_mapped"]
                row := ["1000", "800"] })).qc_results.get "num_cds"
      = .error .keyError := by
  decide

/-- Claim C9 as amended: on a freshly constructed record, after any sequence
of dict writes (every computation step writes through `QCDict.set`), looking
up a key that was never written still returns the `"NA"` sentinel; the
defaulting is preserved by computation, but not by `load_qc_from_file`. -/
theorem default_na_preserved_by_computation (label path k : String) (b : Bool)
    (sets : List (String × PyVal)) (hk : k ∉ sets.map Prod.fst) :
    (sets.foldl (fun d kv => d.set kv.1 kv.2)
        (init label b path).qc_results).get k = .ok (.str "NA") :=
  foldSet_get_default sets (init label b path).qc_results k rfl hk rfl

/-- Witness for amended C9: after writing the three raw counts on a fresh
record, the never-written key `num_cds` still reads as `"NA"`. -/
theorem default_na_preserved_by_computation_witness :
    ([("num_reads", PyVal.int 1000), ("num_mapped", PyVal.int 800),
      ("num_unique_mapped", PyVal.int 760)].foldl
        (fun d kv => d.set kv.1 kv.2)
        (init "w9" false "pw9").qc_results).get "num_cds"
      = .ok (.str "NA") :=
  default_na_preserved_by_computation "w9" "pw9" "num_cds" false
    [("num_reads", PyVal.int 1000), ("num_mapped", PyVal.int 800),
     ("num_unique_mapped", PyVal.int 760)] (by decide)

/-- Claim C10: `QCStats.output_qc` invokes `compile_qc` with one positional
argument although its signature declares none, so for every aggregator state
(in particular any non-empty sample set) and any output path the call raises
`TypeError` before compilation or report writing; the error return means no
new aggregator state or file system is produced. -/
theorem qcstats_output_qc_raises_type_error (st : QCStats.State) (fs : FS)
    (fname : String) (_h : st.samples ≠ []) :
    QCStats.output_qc st fs fname = .error .typeError := by
  rfl

/-- Witness for C10: a one-sample aggregator state fails with `TypeError`. -/
theorem qcstats_output_qc_raises_type_error_witness :
    QCStats.output_qc
      { samples := ["a"], sample_header := "sample", qc_objects := []
        qc_stats := none, qc_header := qc_header_init } [] "report.txt"
      = .error .typeError :=
  qcstats_output_qc_raises_type_error
    { samples := ["a"], sample_header := "sample", qc_objects := []
      qc_stats := none, qc_header := qc_header_init } [] "report.txt"
    (by decide)

/-- Claim C3 as amended: a loaded record holds its raw counts as strings, so
re-computing the derived ratios directly from the loaded values does not
reproduce the originals — whenever the loaded `num_mapped` and
`num_unique_mapped` are strings other than `"NA"`, `compute_qc_stats` fails
with `TypeError` on the first stat (Python 2 string division). -/
theorem recompute_from_loaded_strings_typeerror (s : QCRecord) (a b : String)
    (hm : s.qc_results.get "num_mapped" = .ok (.str a)) (ha : a ≠ "NA")
    (hu : s.qc_results.get "num_unique_mapped" = .ok (.str b))
    (hb : b ≠ "NA") :
    compute_qc_stats s = .error .typeError := by
  have hb' : pyIsNA (PyVal.str b) = false := by simp [pyIsNA, hb]
  have ha' : pyIsNA (PyVal.str a) = false := by simp [pyIsNA, ha]
  have h1 : get_percent_unique s = .error .typeError := by
    unfold get_percent_unique
    rw [hu, hm]
    simp [exceptBind_ok, exceptBind_error, hb', pyDiv]
  unfold compute_qc_stats
  rw [hm]
  simp [exceptBind_ok, exceptBind_error, ha', pyEqZero, h1]

/-- Witness for amended C3: loading a file with `num_mapped = "800"` and
`num_unique_mapped = "760"` then re-computing stats raises `TypeError`. -/
theorem recompute_from_loaded_strings_typeerror_witness :
    compute_qc_stats (load_qc_from_file (init "w3" false "pw3")
      (some { header := ["num_mapped", "num_unique_mapped"]
              row := ["800", "760"] })) = .error .typeError :=
  recompute_from_loaded_strings_typeerror
    (load_qc_from_file (init "w3" false "pw3")
      (some { header := ["num_mapped", "num_unique_mapped"]
              row := ["800", "760"] }))
    "800" "760" (by decide) (by decide) (by decide) (by decide)
